import Mathlib

/-!
Shallow embedding of the StatsBomb → Football-CDF pipeline
(src/transform_to_football_cdf.py and src/football_cdf_to_jsonld.py).

Modelling conventions, applied uniformly:
* JSON dictionaries become Lean structures; a key that the source reads with
  dict.get becomes an Option field; a key the source reads with a hard
  subscript (raising KeyError when absent) is either a required field of the
  structure or, where the source can actually raise, an Except.error.
* Python ints are Nat (all identifiers in this data are non-negative),
  Python floats are exact rationals.
* Python str.lower and the character classes of urllib.parse.quote are
  ASCII; the embedding uses an explicit ASCII lowercase map, which agrees
  with Python on the ASCII inputs this pipeline handles.
* Python dict literals/comprehensions where a later duplicate key overwrites
  an earlier one are modelled by association lists searched from the tail.
-/

/-! ## Shared string helpers -/

/-- ASCII lowercase of one character, as Python str.lower acts on ASCII. -/
def lowerChar (c : Char) : Char :=
  if 'A' ≤ c ∧ c ≤ 'Z' then Char.ofNat (c.toNat + 32) else c

/-- Python str.lower restricted to ASCII strings. -/
def pyLower (s : String) : String :=
  ⟨s.data.map lowerChar⟩

/-- One character of Python text.replace(" ", "_"). -/
def replUnd (c : Char) : Char :=
  if c = ' ' then '_' else c

/-- Python text.replace(" ", "_") (single-character pattern). -/
def spaceUnd (s : String) : String :=
  ⟨s.data.map replUnd⟩

/-- Zero-padded two-digit decimal, as Python format 02d on non-negatives. -/
def pad2 (n : Nat) : String :=
  if n < 10 then "0" ++ toString n else toString n

/-- Zero-padded three-digit decimal, as Python format 03d on non-negatives. -/
def pad3 (n : Nat) : String :=
  if n < 10 then "00" ++ toString n
  else if n < 100 then "0" ++ toString n
  else toString n

/-- Value of a string of decimal digits (the fraction captured from a
timestamp; a non-digit there would raise in the source and is out of scope). -/
def decDigits (s : String) : Nat :=
  s.data.foldl (fun a c => a * 10 + (c.toNat - 48)) 0

/-! ## slug (football_cdf_to_jsonld.py, lines 13-14)

slug(text) = urllib.parse.quote(str(text).lower().replace(" ", "_"), safe="_").
quote encodes the text as UTF-8 and percent-escapes, with uppercase hex,
every byte that is not an ASCII letter, digit, or one of the characters
underscore, dot, dash, tilde. -/

/-- Uppercase hexadecimal digit for a value below 16. -/
def hexDigit (n : Nat) : Char :=
  if n < 10 then Char.ofNat (48 + n) else Char.ofNat (55 + n)

/-- UTF-8 bytes of one character (standard 1-4 byte encoding). -/
def utf8Bytes (c : Char) : List Nat :=
  let n := c.toNat
  if n < 128 then [n]
  else if n < 2048 then [192 + n / 64, 128 + n % 64]
  else if n < 65536 then [224 + n / 4096, 128 + (n / 64) % 64, 128 + n % 64]
  else [240 + n / 262144, 128 + (n / 4096) % 64, 128 + (n / 64) % 64, 128 + n % 64]

/-- Bytes that urllib.parse.quote leaves unescaped with safe set underscore:
ASCII letters, digits, underscore, dot, dash, tilde. -/
def safeByte (b : Nat) : Bool :=
  (65 ≤ b && b ≤ 90) || (97 ≤ b && b ≤ 122) || (48 ≤ b && b ≤ 57) ||
  b == 95 || b == 46 || b == 45 || b == 126

/-- Percent-encoding of one character, uppercase hex, as urllib.parse.quote. -/
def encodeChar (c : Char) : List Char :=
  (utf8Bytes c).flatMap fun b =>
    if safeByte b then [Char.ofNat b] else ['%', hexDigit (b / 16), hexDigit (b % 16)]

/-- urllib.parse.quote with safe set underscore, over a character list. -/
def quoteL (l : List Char) : List Char :=
  l.flatMap encodeChar

/-- slug over a character list: lowercase, spaces to underscores, quote. -/
def slugL (l : List Char) : List Char :=
  quoteL ((l.map lowerChar).map replUnd)

/-- slug from football_cdf_to_jsonld.py: lowercase, spaces to underscores,
then percent-quote. -/
def slug (s : String) : String :=
  ⟨slugL s.data⟩

/-! ## Raw StatsBomb events (input schema of transform_to_football_cdf.py) -/

/-- Nested shot detail of a raw event. -/
structure SBShot where
  outcome : Option String
  shotType : Option String
  key_pass_id : Option String
  deriving DecidableEq, Repr

/-- Nested pass detail of a raw event. -/
structure SBPass where
  goal_assist : Bool
  assisted_shot_id : Option String
  recipient : Option Nat
  end_location : Option (ℚ × ℚ)
  body_part : Option String
  passType : Option String
  outcome : Option String
  deriving DecidableEq, Repr

/-- Nested carry detail of a raw event. -/
structure SBCarry where
  outcome : Option String
  end_location : Option (ℚ × ℚ)
  deriving DecidableEq, Repr

/-- Nested substitution detail: the replacement field holds the incoming
player identifier when the replacement key is present. -/
structure SBSub where
  replacement : Option Nat
  deriving DecidableEq, Repr

/-- The type field of a nested card object: either a dictionary (with an
optional name) or some non-dictionary value. -/
inductive CardTypeField where
  | tdict (name : Option String)
  | tother
  deriving DecidableEq, Repr

/-- A nested card object. extraKeys counts keys other than type and name,
so that Python truthiness of the dictionary (non-emptiness) is expressible. -/
structure CardObj where
  typeField : Option CardTypeField
  flatName : Option String
  extraKeys : Nat
  deriving DecidableEq, Repr

/-- Python truthiness of a card dictionary: it has at least one key. -/
def CardObj.truthy (c : CardObj) : Bool :=
  c.typeField.isSome || c.flatName.isSome || c.extraKeys != 0

/-- One raw StatsBomb event. Fields the source reads with a hard subscript
on every event (id, type name, team id, period) are required; the rest are
optional, mirroring dict.get in the source. -/
structure RawEvent where
  id : String
  typeName : String
  team_id : Nat
  period : Nat
  player_id : Option Nat := none
  minute : Option Nat := none
  second : Option Nat := none
  timestamp : Option String := none
  location : Option (ℚ × ℚ) := none
  duration : Option ℚ := none
  shot : Option SBShot := none
  pass : Option SBPass := none
  carry : Option SBCarry := none
  substitution : Option SBSub := none
  card : Option CardObj := none
  foulCard : Option CardObj := none
  bbCard : Option CardObj := none
  related_events : List String := []
  deriving DecidableEq, Repr

/-! ## transform_to_football_cdf.py helpers -/

/-- period_name, lines 22-29. -/
def period_name (p : Nat) : String :=
  if p = 1 then "first half"
  else if p = 2 then "second half"
  else if p = 3 then "first half extratime"
  else if p = 4 then "second half extratime"
  else if p = 5 then "shootout"
  else "unknown"

/-- is_goal, lines 31-32: type name Shot and shot outcome name Goal. -/
def is_goal (ev : RawEvent) : Bool :=
  ev.typeName = "Shot" && (ev.shot.bind SBShot.outcome) = some "Goal"

/-- Characters after the last dot (text.rsplit on a dot, last part). -/
def afterLastDot : List Char → List Char
  | [] => []
  | c :: l =>
    if c = '.' ∧ '.' ∉ l then l else afterLastDot l

/-- The fractional part used by match_clock: the up-to-three characters
after the last dot of the timestamp, right-padded with zeros, or 000 when
the timestamp has no dot. -/
def clockFrac (ts : String) : String :=
  if '.' ∈ ts.data then
    let f := (afterLastDot ts.data).take 3
    ⟨f ++ List.replicate (3 - f.length) '0'⟩
  else "000"

/-- match_clock, lines 34-45: absolute HH:MM:SS.mmm built from the minute
and second fields (missing or zero values read as zero) plus the fraction
of the auxiliary timestamp (default 00:00:00.000). -/
def match_clock (ev : RawEvent) : String :=
  let minute := ev.minute.getD 0
  let second := ev.second.getD 0
  let frac := clockFrac (ev.timestamp.getD "00:00:00.000")
  let tot := minute * 60 + second
  pad2 (tot / 3600) ++ ":" ++ pad2 (tot % 3600 / 60) ++ ":" ++ pad2 (tot % 60) ++ "." ++ frac

/-! ## Assist correlation (build_match_sheet, lines 52-65) -/

/-- Lookup in an association list modelling a Python dict. -/
def dget (m : List (String × Nat)) (k : String) : Option Nat :=
  (m.find? fun p => p.1 = k).map Prod.snd

/-- Dict assignment: set key k to v, overwriting any previous binding. -/
def dset (m : List (String × Nat)) (k : String) (v : Nat) : List (String × Nat) :=
  (k, v) :: m.filter fun p => p.1 ≠ k

/-- Pass 1 of the assist lookup, lines 54-58: for each Pass event with a
truthy goal_assist flag and a truthy assisted_shot_id, record the passer
under the assisted shot's id. The player subscript can raise KeyError. -/
def pass1 (m : List (String × Nat)) : List RawEvent → Except String (List (String × Nat))
  | [] => Except.ok m
  | ev :: l =>
    if ev.typeName = "Pass" ∧ (ev.pass.map SBPass.goal_assist).getD false then
      match ev.pass.bind SBPass.assisted_shot_id with
      | some sid =>
        if sid ≠ "" then
          match ev.player_id with
          | some pid => pass1 (dset m sid pid) l
          | none => Except.error "KeyError: player"
        else pass1 m l
      | none => pass1 m l
    else pass1 m l

/-- Pass 2 of the assist lookup, lines 59-65: for each Shot event with a
truthy key_pass_id kp, when kp itself is not a key of the map, resolve the
pass event with id kp over the full event list and record its player under
the shot's id. Note the source tests membership of kp, the key-pass id, in
a map keyed by shot ids. -/
def pass2 (events : List RawEvent) (m : List (String × Nat)) :
    List RawEvent → Except String (List (String × Nat))
  | [] => Except.ok m
  | ev :: l =>
    if ev.typeName = "Shot" then
      match ev.shot.bind SBShot.key_pass_id with
      | some kp =>
        if kp ≠ "" ∧ (dget m kp).isNone then
          match events.find? fun p => p.id = kp with
          | some passer =>
            match passer.player_id with
            | some pid => pass2 events (dset m ev.id pid) l
            | none => Except.error "KeyError: player"
          | none => pass2 events m l
        else pass2 events m l
      | none => pass2 events m l
    else pass2 events m l

/-- The complete assist_for map, lines 52-65: pass 1 then pass 2. -/
def assistFor (events : List RawEvent) : Except String (List (String × Nat)) :=
  match pass1 [] events with
  | Except.ok m => pass2 events m events
  | Except.error e => Except.error e

/-! ## Goals and running score (build_match_sheet, lines 67-130)

The sheet stores identifiers as strings produced by str() from the raw
integers; they are kept as Nat here, since str is injective on them and is
re-applied consistently on both sides of every later join. -/

/-- One entry of the running-score (goals) list, lines 76-87. -/
structure GoalRec where
  time : String
  player_id : Nat
  assist_id : Option Nat
  team_id : Nat
  is_own_goal : Bool
  is_penalty : Bool
  score_home : Nat
  score_away : Nat
  deriving DecidableEq, Repr

/-- The per-period result breakdown of the sheet, lines 101-130. -/
structure MatchResult where
  final_home : Nat
  final_away : Nat
  winning_team_id : Option Nat
  first_half_home : Nat
  first_half_away : Nat
  second_half_home : Nat
  second_half_away : Nat
  fhet_home : Nat
  fhet_away : Nat
  shet_home : Nat
  shet_away : Nat
  shootout_home : Nat
  shootout_away : Nat
  deriving DecidableEq, Repr

/-- Accumulator of the goals loop: score_by_team and goals_by_period_team
are defaultdicts over int, modelled as total functions with default 0. -/
structure GoalState where
  score : Nat → Nat
  gbpt : Nat → Nat → Nat
  running : List GoalRec

/-- Body of the goals loop, lines 72-87, for one goal event. The player
subscript can raise KeyError; the assist value is kept only when truthy
(a looked-up assist player id of 0 is falsy and becomes None). -/
def goalStep (home away : Nat) (amap : List (String × Nat)) (st : GoalState)
    (ev : RawEvent) : Except String GoalState :=
  match ev.player_id with
  | none => Except.error "KeyError: player"
  | some pid =>
    let tid := ev.team_id
    let score1 : Nat → Nat := fun t => if t = tid then st.score t + 1 else st.score t
    let gbpt1 : Nat → Nat → Nat := fun p t =>
      if p = ev.period ∧ t = tid then st.gbpt p t + 1 else st.gbpt p t
    let assist : Option Nat :=
      match dget amap ev.id with
      | some a => if a = 0 then none else some a
      | none => none
    let rec0 : GoalRec :=
      { time := match_clock ev
        player_id := pid
        assist_id := assist
        team_id := tid
        is_own_goal := (ev.shot.bind SBShot.outcome) = some "Own Goal"
        is_penalty := (ev.shot.bind SBShot.shotType) = some "Penalty"
        score_home := score1 home
        score_away := score1 away }
    Except.ok { score := score1, gbpt := gbpt1, running := st.running ++ [rec0] }

/-- The goals loop, lines 72-87, folded over the filtered goal events. -/
def goalsFold (home away : Nat) (amap : List (String × Nat)) (st : GoalState) :
    List RawEvent → Except String GoalState
  | [] => Except.ok st
  | ev :: l =>
    match goalStep home away amap st ev with
    | Except.ok st1 => goalsFold home away amap st1 l
    | Except.error e => Except.error e

/-- The result block of the sheet, lines 101-130, read off the final
accumulator: final totals from score_by_team, per-period totals from
goals_by_period_team (missing keys read as 0 by the defaultdict). -/
def mkResult (st : GoalState) (home away : Nat) : MatchResult :=
  { final_home := st.score home
    final_away := st.score away
    winning_team_id :=
      if st.score home ≠ st.score away then
        some (if st.score home > st.score away then home else away)
      else none
    first_half_home := st.gbpt 1 home
    first_half_away := st.gbpt 1 away
    second_half_home := st.gbpt 2 home
    second_half_away := st.gbpt 2 away
    fhet_home := st.gbpt 3 home
    fhet_away := st.gbpt 3 away
    shet_home := st.gbpt 4 home
    shet_away := st.gbpt 4 away
    shootout_home := st.gbpt 5 home
    shootout_away := st.gbpt 5 away }

/-- Goals and result of build_match_sheet, lines 67-130: filter the goal
events, fold the running-score loop, then assemble the result block. -/
def buildGoals (events : List RawEvent) (amap : List (String × Nat))
    (home away : Nat) : Except String (List GoalRec × MatchResult) :=
  match goalsFold home away amap ⟨fun _ => 0, fun _ _ => 0, []⟩ (events.filter is_goal) with
  | Except.ok st => Except.ok (st.running, mkResult st home away)
  | Except.error e => Except.error e

/-! ## Substitutions (build_match_sheet, lines 165-178) -/

/-- One entry of the canonical substitution list, lines 172-178. -/
structure SubRec where
  in_time : String
  in_player_id : Nat
  out_time : String
  out_player_id : Nat
  team_id : Nat
  deriving DecidableEq, Repr

/-- Contribution of one raw event to the substitution list, lines 166-178:
non-substitution events and events without a replacement key contribute
nothing; otherwise one record is built, with the acting-player subscript
able to raise KeyError. -/
def subEntries (ev : RawEvent) : Except String (List SubRec) :=
  if ev.typeName = "Substitution" then
    match ev.substitution.bind SBSub.replacement with
    | some rid =>
      match ev.player_id with
      | some pid =>
        Except.ok [{ in_time := match_clock ev
                     in_player_id := rid
                     out_time := match_clock ev
                     out_player_id := pid
                     team_id := ev.team_id }]
      | none => Except.error "KeyError: player"
    | none => Except.ok []
  else Except.ok []

/-- The substitution loop, lines 165-178, appending each contribution. -/
def buildSubs : List RawEvent → Except String (List SubRec)
  | [] => Except.ok []
  | ev :: l =>
    match subEntries ev with
    | Except.ok r =>
      match buildSubs l with
      | Except.ok rest => Except.ok (r ++ rest)
      | Except.error e => Except.error e
    | Except.error e => Except.error e

/-! ## Cards (build_match_sheet, lines 180-206) -/

/-- One entry of the canonical card list, lines 201-206. The sheet stores
str() of a possibly missing player id, so the field is a string here
(str of None is the four-character string None). -/
structure CardRec where
  time : String
  player_id : String
  ctype : String
  team_id : Nat
  deriving DecidableEq, Repr

/-- Python str() of an optional player id as the card loop applies it. -/
def pidStrN : Option Nat → String
  | some p => toString p
  | none => "None"

/-- The nested card object selected by event type, lines 182-189. -/
def cardObjOf (ev : RawEvent) : Option CardObj :=
  if ev.typeName = "Card" then ev.card
  else if ev.typeName = "Foul Committed" then ev.foulCard
  else if ev.typeName = "Bad Behaviour" then ev.bbCard
  else none

/-- The resolvable raw card-type name, lines 194-198: the name of the typed
sub-object when the type field is a dictionary, else the flat name field. -/
def rawCardName (c : CardObj) : Option String :=
  match c.typeField with
  | some (CardTypeField.tdict n) => n
  | some CardTypeField.tother => c.flatName
  | none => c.flatName

/-- The lowercase card-type string, line 199: unknown when the raw name is
None or empty (an empty string is falsy in the source's or-expression). -/
def cardTypeStr (c : CardObj) : String :=
  match rawCardName c with
  | some s => if s = "" then "unknown" else pyLower s
  | none => "unknown"

/-- Contribution of one raw event to the card list, lines 181-206: nothing
unless a truthy (non-empty) nested card object was selected. -/
def cardEntries (ev : RawEvent) : List CardRec :=
  match cardObjOf ev with
  | some c =>
    if c.truthy then
      [{ time := match_clock ev
         player_id := pidStrN ev.player_id
         ctype := cardTypeStr c
         team_id := ev.team_id }]
    else []
  | none => []

/-- The card loop, lines 180-206, appending each contribution. -/
def buildCards : List RawEvent → List CardRec
  | [] => []
  | ev :: l => cardEntries ev ++ buildCards l

/-! ## Flat events (build_event_cdf, lines 211-253) -/

/-- One canonical flat event row, lines 227-252. -/
structure FlatEvent where
  event_id : String
  event_time : String
  event_period : String
  event_type : String
  event_sub_type : Option String := none
  event_is_successful : Bool := false
  event_outcome_type : Option String := none
  event_player_id : Option Nat := none
  event_team_id : Nat
  event_receiver_id : Option Nat := none
  event_receiver_time : Option String := none
  event_x : Option ℚ := none
  event_y : Option ℚ := none
  event_x_end : Option ℚ := none
  event_y_end : Option ℚ := none
  event_body_part : Option String := none
  event_related_event_ids : List String := []
  deriving DecidableEq, Repr

/-- The outcome name, lines 219-220: the outcome of the first present
detail object among shot, pass and carry (the or-chain picks the object,
then reads its outcome name). -/
def evOutcome (ev : RawEvent) : Option String :=
  match ev.shot with
  | some s => s.outcome
  | none =>
    match ev.pass with
    | some p => p.outcome
    | none =>
      match ev.carry with
      | some c => c.outcome
      | none => none

/-- Python or over optional strings: the left value unless it is None or
empty (both falsy). -/
def pyOrStr (a b : Option String) : Option String :=
  match a with
  | some s => if s = "" then b else some s
  | none => b

/-- Microseconds on the match clock of an event, as strptime reads the
match_clock string back (three fraction digits are a millisecond count). -/
def clockMicros (ev : RawEvent) : Nat :=
  ((ev.minute.getD 0) * 60 + ev.second.getD 0) * 1000000 +
    decDigits (clockFrac (ev.timestamp.getD "00:00:00.000")) * 1000

/-- strftime of a microsecond count as HH:MM:SS.ffffff truncated to
milliseconds, lines 224-225 (the hour wraps at 24 as in datetime). -/
def fmtClockMicros (m : Nat) : String :=
  let totSec := m / 1000000
  pad2 (totSec / 3600 % 24) ++ ":" ++ pad2 (totSec % 3600 / 60) ++ ":" ++
    pad2 (totSec % 60) ++ "." ++ pad3 (m % 1000000 / 1000)

/-- Microsecond count of a float second count, rounded as timedelta rounds
(the floor of one million times the value plus one half, written directly
on the numerator and denominator; ties cannot arise at the grain this
pipeline uses). -/
def durMicros (q : ℚ) : Int :=
  (q.num * 2000000 + q.den).fdiv (2 * q.den)

/-- Receiver time, lines 222-225: present exactly when the raw event has a
pass key and a duration key; the event clock plus the duration (a float
second count, modelled as an exact rational rounded to microseconds as
timedelta does). -/
def recvTime (ev : RawEvent) : Option String :=
  if ev.pass.isSome ∧ ev.duration.isSome then
    some (fmtClockMicros ((clockMicros ev : ℤ) + durMicros (ev.duration.getD 0)).toNat)
  else none

/-- One flat row from one raw event, lines 227-252. -/
def buildRow (ev : RawEvent) : FlatEvent :=
  { event_id := ev.id
    event_time := match_clock ev
    event_period := period_name ev.period
    event_type := pyLower ev.typeName
    event_sub_type := pyOrStr (ev.shot.bind SBShot.shotType) (ev.pass.bind SBPass.passType)
    event_is_successful :=
      !(evOutcome ev = some "Incomplete" || evOutcome ev = some "Out" || evOutcome ev = none)
    event_outcome_type := evOutcome ev
    event_player_id := ev.player_id
    event_team_id := ev.team_id
    event_receiver_id := ev.pass.bind SBPass.recipient
    event_receiver_time := recvTime ev
    event_x := ev.location.map Prod.fst
    event_y := ev.location.map Prod.snd
    event_x_end :=
      (match ev.pass.bind SBPass.end_location with
       | some l => some l
       | none => ev.carry.bind SBCarry.end_location).map Prod.fst
    event_y_end :=
      (match ev.pass.bind SBPass.end_location with
       | some l => some l
       | none => ev.carry.bind SBCarry.end_location).map Prod.snd
    event_body_part := ev.pass.bind SBPass.body_part
    event_related_event_ids := ev.related_events }

/-- The administrative event types excluded from the flat list, line 212. -/
def metaEvents : List String := ["starting xi", "half start", "half end"]

/-- build_event_cdf, lines 211-253 (keep_meta is the constant False). -/
def build_event_cdf (events : List RawEvent) : List FlatEvent :=
  (events.filter fun ev => pyLower ev.typeName ∉ metaEvents).map buildRow

/-! ## Graph builder (football_cdf_to_jsonld.py)

Node addresses are the namespace-relative paths the source builds with
core(...); the CORE prefix is left implicit. The RDF.type predicate is
written rdf:type to keep it distinct from the vocabulary predicates. -/

/-- A Python scalar entering the graph through lit(). -/
inductive PyVal where
  | vnone
  | vstr (s : String)
  | vint (n : Int)
  | vfloat (q : ℚ)
  | vbool (b : Bool)
  deriving DecidableEq, Repr

/-- A typed literal: the raw value with the datatype chosen by lit(). -/
structure LitVal where
  val : PyVal
  dtype : String
  deriving DecidableEq, Repr

/-- An object position of a triple: a node address or a typed literal. -/
inductive Obj where
  | uri (path : String)
  | lit (v : LitVal)
  deriving DecidableEq, Repr

/-- One graph triple. -/
structure Triple where
  s : String
  p : String
  o : Obj
  deriving DecidableEq, Repr

/-- The lit() coercion, lines 16-29: None maps to nothing; an explicit datatype wins;
otherwise bool, integer, float, a string ending in Z and containing T
(dateTime), then string, in that priority order. -/
def litOf (v : PyVal) (dt : Option String) : Option LitVal :=
  match v with
  | PyVal.vnone => none
  | _ =>
    match dt with
    | some d => some ⟨v, d⟩
    | none =>
      match v with
      | PyVal.vbool b => some ⟨PyVal.vbool b, "boolean"⟩
      | PyVal.vint n => some ⟨PyVal.vint n, "integer"⟩
      | PyVal.vfloat q => some ⟨PyVal.vfloat q, "float"⟩
      | PyVal.vstr s =>
        if s.data.getLastD ' ' = 'Z' ∧ 'T' ∈ s.data then some ⟨PyVal.vstr s, "dateTime"⟩
        else some ⟨PyVal.vstr s, "string"⟩
      | PyVal.vnone => none

/-- The add() helper, lines 31-33: one triple when the value is not None, else none. -/
def addT (s p : String) (v : PyVal) (dt : Option String) : List Triple :=
  match litOf v dt with
  | some lv => [⟨s, p, Obj.lit lv⟩]
  | none => []

/-- Optional string as the Python value it is in the source. -/
def optStr : Option String → PyVal
  | some s => PyVal.vstr s
  | none => PyVal.vnone

/-- Optional rational (float) as the Python value it is in the source. -/
def optQ : Option ℚ → PyVal
  | some q => PyVal.vfloat q
  | none => PyVal.vnone

/-- The address of a player node, as both the roster registration (line
112) and the stub fallback (line 202) build it. -/
def playerUri (pid : Nat) : String := "player/" ++ toString pid

/-- str() of the optional flat player id, as the goal join key applies it
(line 189): str of None is the string None. -/
def evKeyPid : Option Nat → String
  | some p => toString p
  | none => "None"

/-- The goal join key of a flat event, line 189. -/
def evKey (ev : FlatEvent) : String × String × String :=
  (ev.event_time, evKeyPid ev.event_player_id, toString ev.event_team_id)

/-- The key of a sheet goal record in goal_lkp, lines 149-150. -/
def goalKey (g : GoalRec) : String × String × String :=
  (g.time, toString g.player_id, toString g.team_id)

/-- goal_lkp, lines 149-150: a dict comprehension, so of two records with
the same key the later one wins; lookup searches from the tail. -/
def goalLkp (goals : List GoalRec) (k : String × String × String) : Option GoalRec :=
  goals.reverse.find? fun g0 => goalKey g0 = k

/-- sub_lkp, line 151, keyed by in_time, later records winning. -/
def subLkp (subs : List SubRec) (t : String) : Option SubRec :=
  subs.reverse.find? fun s0 => s0.in_time = t

/-- card_lkp, lines 152-153, keyed by time and player string. -/
def cardLkp (cards : List CardRec) (k : String × String) : Option CardRec :=
  cards.reverse.find? fun c0 => (c0.time, c0.player_id) = k

/-- The predicate/value/datatype rows of the attribute loop, lines 161-173. -/
def attrSpec (ev : FlatEvent) : List (String × PyVal × Option String) :=
  [("id", PyVal.vstr ev.event_id, none),
   ("time", PyVal.vstr ev.event_time, none),
   ("event_period", PyVal.vstr (spaceUnd ev.event_period), none),
   ("type", PyVal.vstr ev.event_type, none),
   ("sub_type", optStr ev.event_sub_type, none),
   ("outcome_type", optStr ev.event_outcome_type, none),
   ("x", optQ ev.event_x, some "float"),
   ("y", optQ ev.event_y, some "float"),
   ("x_end", optQ ev.event_x_end, some "float"),
   ("y_end", optQ ev.event_y_end, some "float"),
   ("body_part", optStr ev.event_body_part, none)]

/-- The attribute loop of the event block, lines 161-174. -/
def attrTriples (e : String) (ev : FlatEvent) : List Triple :=
  (attrSpec ev).flatMap fun x => addT e x.1 x.2.1 x.2.2

/-- The acting-player link, lines 177-178: nothing when the id is falsy
(None or 0); otherwise an index lookup that raises KeyError when the id
was never registered (the index maps each registered id to its player
node address). -/
def playerLink (e : String) (reg : List Nat) (ev : FlatEvent) :
    Except String (List Triple) :=
  match ev.event_player_id with
  | some pid =>
    if pid ≠ 0 then
      if pid ∈ reg then Except.ok [⟨e, "player_id", Obj.uri (playerUri pid)⟩]
      else Except.error ("KeyError: " ++ toString pid)
    else Except.ok []
  | none => Except.ok []

/-- The lowercased outcome the sub-typing switches on, line 182. -/
def outcomeLower (ev : FlatEvent) : String :=
  pyLower (ev.event_outcome_type.getD "")

/-- The Shot/Goal block, lines 184-195: a Shot tag for shot events; for a
goal or successful outcome also a Goal tag, and, on a goal_lkp hit, the
assist link (an index lookup that can raise) when the record's assist id
is truthy, plus the own-goal and penalty flags. -/
def shotTriples (e : String) (reg : List Nat) (goals : List GoalRec)
    (ev : FlatEvent) : Except String (List Triple) :=
  if ev.event_type = "shot" then
    if outcomeLower ev = "goal" ∨ outcomeLower ev = "successful" then
      match goalLkp goals (evKey ev) with
      | some gd =>
        match gd.assist_id with
        | some a =>
          if a ∈ reg then
            Except.ok ([⟨e, "rdf:type", Obj.uri "Shot"⟩, ⟨e, "rdf:type", Obj.uri "Goal"⟩,
              ⟨e, "assist_id", Obj.uri (playerUri a)⟩] ++
              addT e "is_own_goal" (PyVal.vbool gd.is_own_goal) none ++
              addT e "is_penalty" (PyVal.vbool gd.is_penalty) none)
          else Except.error ("KeyError: " ++ toString a)
        | none =>
          Except.ok ([⟨e, "rdf:type", Obj.uri "Shot"⟩, ⟨e, "rdf:type", Obj.uri "Goal"⟩] ++
            addT e "is_own_goal" (PyVal.vbool gd.is_own_goal) none ++
            addT e "is_penalty" (PyVal.vbool gd.is_penalty) none)
      | none => Except.ok [⟨e, "rdf:type", Obj.uri "Shot"⟩, ⟨e, "rdf:type", Obj.uri "Goal"⟩]
    else Except.ok [⟨e, "rdf:type", Obj.uri "Shot"⟩]
  else Except.ok []

/-- The Pass block, lines 198-204: a Pass tag, a receiver link for a truthy
receiver id (the index default makes the stub address equal the registered
address, so the link never raises), and the receiver time attribute. -/
def passTriples (e : String) (ev : FlatEvent) : List Triple :=
  if ev.event_type = "pass" then
    [⟨e, "rdf:type", Obj.uri "Pass"⟩] ++
    (match ev.event_receiver_id with
     | some rid => if rid ≠ 0 then [⟨e, "receiver_id", Obj.uri (playerUri rid)⟩] else []
     | none => []) ++
    addT e "receiver_time" (optStr ev.event_receiver_time) none
  else []

/-- The Substitution block, lines 207-212 (the Subtitution spelling is the
source's): on a sub_lkp hit, the outgoing-player link is an index lookup
that can raise, plus the out_time attribute. -/
def subTriples (e : String) (reg : List Nat) (subs : List SubRec)
    (ev : FlatEvent) : Except String (List Triple) :=
  if ev.event_type = "substitution" then
    match subLkp subs ev.event_time with
    | some sd =>
      if sd.out_player_id ∈ reg then
        Except.ok ([⟨e, "rdf:type", Obj.uri "Subtitution"⟩,
          ⟨e, "out_player_id", Obj.uri (playerUri sd.out_player_id)⟩] ++
          addT e "out_time" (PyVal.vstr sd.out_time) none)
      else Except.error ("KeyError: " ++ toString sd.out_player_id)
    | none => Except.ok [⟨e, "rdf:type", Obj.uri "Subtitution"⟩]
  else Except.ok []

/-- Python str() applied to a falsy-defaulted player id, line 215: an id of None
or 0 becomes the empty string. -/
def cardKeyPid : Option Nat → String
  | some p => if p = 0 then "" else toString p
  | none => ""

/-- The Card block, lines 214-220: a Card tag for card-typed events or on
a card_lkp hit, with the card type attribute when a record was found. -/
def cardTriples (e : String) (cards : List CardRec) (ev : FlatEvent) : List Triple :=
  let cinfo := cardLkp cards (ev.event_time, cardKeyPid ev.event_player_id)
  if ev.event_type = "card" ∨ cinfo.isSome then
    [⟨e, "rdf:type", Obj.uri "Card"⟩] ++
    addT e "card_type" (optStr (cinfo.map CardRec.ctype)) none
  else []

/-- The whole per-event block of build_graph, lines 156-220, for one flat
event: the base node and attributes, the acting-player and team links,
then the Shot/Goal, Pass, Substitution and Card sub-typing blocks. -/
def eventTriples (m : String) (reg : List Nat) (goals : List GoalRec)
    (subs : List SubRec) (cards : List CardRec) (ev : FlatEvent) :
    Except String (List Triple) :=
  let e := "event/" ++ ev.event_id
  match playerLink e reg ev with
  | Except.error err => Except.error err
  | Except.ok pl =>
    match shotTriples e reg goals ev with
    | Except.error err => Except.error err
    | Except.ok sh =>
      match subTriples e reg subs ev with
      | Except.error err => Except.error err
      | Except.ok su =>
        Except.ok ([⟨e, "rdf:type", Obj.uri "Event"⟩,
          ⟨"match/" ++ m, "events", Obj.uri e⟩] ++
          attrTriples e ev ++ pl ++
          [⟨e, "team_id", Obj.uri ("team/" ++ toString ev.event_team_id)⟩] ++
          sh ++ passTriples e ev ++ su ++ cardTriples e cards ev)

/-- The event loop of build_graph over the whole flat event list. -/
def buildGraphEvents (m : String) (reg : List Nat) (goals : List GoalRec)
    (subs : List SubRec) (cards : List CardRec) :
    List FlatEvent → Except String (List Triple)
  | [] => Except.ok []
  | ev :: l =>
    match eventTriples m reg goals subs cards ev with
    | Except.ok ts =>
      match buildGraphEvents m reg goals subs cards l with
      | Except.ok rest => Except.ok (ts ++ rest)
      | Except.error e => Except.error e
    | Except.error e => Except.error e

/-- Decidable equality of Except results, for evaluating the embedding at
concrete inputs. -/
instance exceptDecEq {ε α : Type} [DecidableEq ε] [DecidableEq α] :
    DecidableEq (Except ε α) := fun x y =>
  match x, y with
  | Except.ok a, Except.ok b =>
    if h : a = b then isTrue (by rw [h])
    else isFalse fun hc => h (by injection hc)
  | Except.ok _, Except.error _ => isFalse fun hc => Except.noConfusion hc
  | Except.error _, Except.ok _ => isFalse fun hc => Except.noConfusion hc
  | Except.error e, Except.error f =>
    if h : e = f then isTrue (by rw [h])
    else isFalse fun hc => h (by injection hc)

/-! # Theorems -/

/-! ## C5: slug idempotence -/

/-- Characters within which slug acts as plain lowercase plus the space to
underscore substitution: ASCII letters, digits, space, and the four safe
punctuation marks. -/
def slugSafeChars : List Char :=
  "abcdefghijklmnopqrstuvwxyzABCDEFGHIJKLMNOPQRSTUVWXYZ0123456789 _.-~".data

/-- The image alphabet of slug on slugSafeChars inputs. -/
def slugStableChars : List Char :=
  "abcdefghijklmnopqrstuvwxyz0123456789_.-~".data

theorem slug_char_step : ∀ c ∈ slugSafeChars,
    encodeChar (replUnd (lowerChar c)) = [replUnd (lowerChar c)] ∧
      replUnd (lowerChar c) ∈ slugStableChars := by
  decide

theorem slug_char_fix : ∀ c ∈ slugStableChars,
    lowerChar c = c ∧ replUnd c = c ∧ encodeChar c = [c] := by
  decide

theorem slugL_of_safe : ∀ l : List Char, (∀ c ∈ l, c ∈ slugSafeChars) →
    slugL l = l.map (fun c => replUnd (lowerChar c)) ∧
      ∀ c1 ∈ slugL l, c1 ∈ slugStableChars := by
  intro l hl
  induction l with
  | nil => exact ⟨rfl, by intro c1 hc1; cases hc1⟩
  | cons c l ih =>
    have hc := slug_char_step c (hl c (by simp))
    have ih1 := ih fun x hx => hl x (by simp [hx])
    constructor
    · simp only [slugL, quoteL, List.map_cons, List.flatMap_cons, hc.1]
      simp only [slugL, quoteL] at ih1
      rw [ih1.1]
      rfl
    · intro c1 hc1
      simp only [slugL, quoteL, List.map_cons, List.flatMap_cons, hc.1,
        List.mem_append] at hc1
      rcases hc1 with h | h
      · simp only [List.mem_singleton] at h
        exact h ▸ hc.2
      · exact ih1.2 c1 h

theorem slugL_of_stable : ∀ l : List Char, (∀ c ∈ l, c ∈ slugStableChars) →
    slugL l = l := by
  intro l hl
  induction l with
  | nil => rfl
  | cons c l ih =>
    have hc := slug_char_fix c (hl c (by simp))
    have ih1 := ih fun x hx => hl x (by simp [hx])
    simp only [slugL, quoteL, List.map_cons, List.flatMap_cons, hc.1, hc.2.1, hc.2.2]
    simp only [slugL, quoteL] at ih1
    rw [ih1]
    rfl

/-- C5, counterexample: slugging twice differs from slugging once on the
label a colon b, because the first application percent-escapes the colon
with uppercase hex and the second lowercases and re-escapes the percent
sign. The claim as stated (idempotence for every string) is false. -/
theorem c5_slug_idem_cex :
    slug (slug "a:b") ≠ slug "a:b" ∧ slug "a:b" = "a%3Ab" ∧
      slug (slug "a:b") = "a%253ab" := by
  decide

/-- C5, amended: slug is a pure function of its input (it is a Lean
function of the string alone), and it is idempotent on every label whose
characters are ASCII letters, digits, spaces, or the quote-safe marks
underscore, dot, dash and tilde; for labels that need percent-escaping,
re-slugging re-escapes the introduced percent signs, as the counterexample
shows. -/
theorem c5_slug_idem_amended (s : String) (h : ∀ c ∈ s.data, c ∈ slugSafeChars) :
    slug (slug s) = slug s := by
  have h1 := slugL_of_safe s.data h
  have h2 : slugL (slug s).data = (slug s).data := slugL_of_stable _ h1.2
  show (⟨slugL (slug s).data⟩ : String) = slug s
  rw [h2]

/-- C5 witness: the amended idempotence theorem applied to the concrete
label first half (letters and a space). -/
theorem c5_slug_idem_witness :
    (∀ c ∈ ("first half" : String).data, c ∈ slugSafeChars) ∧
      slug (slug "first half") = slug "first half" :=
  ⟨by decide, c5_slug_idem_amended "first half" (by decide)⟩

/-! ## C6: match clock -/

/-- C6, counterexample: two raw events in different periods (1 and 2) with
the same minute, second and timestamp receive the same match-clock string,
refuting the claim that they receive distinct absolute clock strings:
match_clock reads only minute, second and timestamp, never the period. -/
theorem c6_match_clock_cex :
    match_clock
        { id := "a", typeName := "Pass", team_id := 1, period := 1,
          minute := some 10, second := some 5, timestamp := some "00:10:05.250" } =
      match_clock
        { id := "b", typeName := "Pass", team_id := 1, period := 2,
          minute := some 10, second := some 5, timestamp := some "00:10:05.250" } ∧
      (1 : Nat) ≠ 2 := by
  decide

/-- C6, amended: match_clock converts the minute/second fields plus the
fractional hint parsed from the timestamp (000 when the timestamp has no
dot) into an HH:MM:SS.mmm string that depends on nothing else; hence two
events agreeing on minute, second and timestamp receive the same string
regardless of period, and an absent timestamp yields the 000 fraction. -/
theorem c6_match_clock_amended (e1 e2 : RawEvent)
    (hm : e1.minute = e2.minute) (hs : e1.second = e2.second)
    (ht : e1.timestamp = e2.timestamp) :
    match_clock e1 = match_clock e2 ∧
      (e1.timestamp = none → clockFrac (e1.timestamp.getD "00:00:00.000") = "000") := by
  constructor
  · simp only [match_clock, hm, hs, ht]
  · intro hn
    rw [hn]
    decide

/-- C6 witness: the amended theorem applied to two concrete events that
differ in period and player but agree on minute, second and timestamp. -/
theorem c6_match_clock_witness :
    match_clock
        { id := "a", typeName := "Shot", team_id := 1, period := 1,
          player_id := some 4, minute := some 23, second := some 4,
          timestamp := some "00:11:04.500" } =
      match_clock
        { id := "b", typeName := "Shot", team_id := 2, period := 3,
          player_id := some 5, minute := some 23, second := some 4,
          timestamp := some "00:11:04.500" } :=
  (c6_match_clock_amended _ _ rfl rfl rfl).1

/-! ## C7: substitution extraction -/

/-- C7: a substitution-type raw event without a replacement reference
contributes no entry to the canonical substitution list, and one with a
replacement reference (and an acting player, whose absence would raise in
the source) contributes exactly one entry whose out_player_id is the acting
player and whose in_time and out_time are both the event's own match-clock
string. -/
theorem c7_substitution_extraction (ev : RawEvent)
    (htype : ev.typeName = "Substitution") :
    (ev.substitution.bind SBSub.replacement = none → subEntries ev = Except.ok []) ∧
      (∀ rid pid, ev.substitution.bind SBSub.replacement = some rid →
        ev.player_id = some pid →
        subEntries ev = Except.ok
          [{ in_time := match_clock ev, in_player_id := rid,
             out_time := match_clock ev, out_player_id := pid,
             team_id := ev.team_id }]) := by
  constructor
  · intro hrep
    simp [subEntries, htype, hrep]
  · intro rid pid hrep hpid
    simp [subEntries, htype, hrep, hpid]

/-- C7 witness: the theorem applied to a concrete substitution event with
replacement player 15 and acting player 9. -/
theorem c7_substitution_extraction_witness :
    subEntries
        { id := "s1", typeName := "Substitution", team_id := 3, period := 2,
          player_id := some 9, minute := some 60, second := some 0,
          timestamp := some "00:15:00.000",
          substitution := some { replacement := some 15 } } =
      Except.ok
        [{ in_time := "01:00:00.000", in_player_id := 15,
           out_time := "01:00:00.000", out_player_id := 9, team_id := 3 }] := by
  have h := (c7_substitution_extraction
    { id := "s1", typeName := "Substitution", team_id := 3, period := 2,
      player_id := some 9, minute := some 60, second := some 0,
      timestamp := some "00:15:00.000",
      substitution := some { replacement := some 15 } } rfl).2 15 9 rfl rfl
  exact h

/-! ## C9: receiver time -/

/-- C9, counterexample: a raw pass event that is not completed (outcome
Incomplete, success flag false) but carries a duration still gets a
non-null receiver time in its flat row: the source only tests the presence
of the pass and duration keys, never the outcome. The claim as stated is
false. -/
theorem c9_receiver_time_cex :
    (buildRow
        { id := "p1", typeName := "Pass", team_id := 1, period := 1,
          player_id := some 2, minute := some 10, second := some 5,
          timestamp := some "00:10:05.000", duration := some 2,
          pass := some { goal_assist := false, assisted_shot_id := none,
                         recipient := some 3, end_location := none,
                         body_part := none, passType := none,
                         outcome := some "Incomplete" } }).event_is_successful
        = false ∧
      (buildRow
        { id := "p1", typeName := "Pass", team_id := 1, period := 1,
          player_id := some 2, minute := some 10, second := some 5,
          timestamp := some "00:10:05.000", duration := some 2,
          pass := some { goal_assist := false, assisted_shot_id := none,
                         recipient := some 3, end_location := none,
                         body_part := none, passType := none,
                         outcome := some "Incomplete" } }).event_receiver_time
        = some "00:10:07.000" := by
  decide

/-- C9, amended: a flat row carries a non-null receiver time exactly when
its source raw event has a pass detail object and a duration field,
regardless of the pass outcome or success flag. -/
theorem c9_receiver_time_amended (ev : RawEvent) :
    (buildRow ev).event_receiver_time.isSome =
      (ev.pass.isSome && ev.duration.isSome) := by
  simp only [buildRow, recvTime]
  by_cases h : ev.pass.isSome ∧ ev.duration.isSome
  · simp [h.1, h.2]
  · rcases not_and_or.mp h with h1 | h1 <;> simp [h1]

/-! ## Shared lemmas about the graph event block -/

theorem addT_pred (s p : String) (v : PyVal) (dt : Option String) (t : Triple)
    (ht : t ∈ addT s p v dt) : t.p = p := by
  unfold addT at ht
  cases hl : litOf v dt with
  | some lv => rw [hl] at ht; simp only [List.mem_singleton] at ht; rw [ht]
  | none => rw [hl] at ht; cases ht

theorem attrTriples_ne_assist (e : String) (ev : FlatEvent) (t : Triple)
    (ht : t ∈ attrTriples e ev) : t.p ≠ "assist_id" := by
  simp only [attrTriples, List.mem_flatMap] at ht
  obtain ⟨x, hx, hmem⟩ := ht
  have hp := addT_pred _ _ _ _ _ hmem
  rw [hp]
  simp only [attrSpec, List.mem_cons, List.not_mem_nil, or_false] at hx
  rcases hx with h | h | h | h | h | h | h | h | h | h | h <;> simp [h]

theorem cardTriples_ne_assist (e : String) (cards : List CardRec) (ev : FlatEvent)
    (t : Triple) (ht : t ∈ cardTriples e cards ev) : t.p ≠ "assist_id" := by
  simp only [cardTriples] at ht
  split at ht
  · simp only [List.cons_append, List.mem_cons] at ht
    rcases ht with h | h
    · rw [h]; simp
    · have hp := addT_pred _ _ _ _ _ (by simpa using h); rw [hp]; simp
  · cases ht

/-- The acting-player link succeeds when every truthy acting-player id is
registered, yields only player_id triples, and yields the link for the
acting player when one is present. -/
theorem playerLink_spec (e : String) (reg : List Nat) (ev : FlatEvent)
    (h1 : ∀ pid, ev.event_player_id = some pid → pid ≠ 0 → pid ∈ reg) :
    ∃ pl, playerLink e reg ev = Except.ok pl ∧
      (∀ t ∈ pl, t.p = "player_id") ∧
      (∀ pid, ev.event_player_id = some pid → pid ≠ 0 →
        Triple.mk e "player_id" (Obj.uri (playerUri pid)) ∈ pl) := by
  cases hpid : ev.event_player_id with
  | none =>
    refine ⟨[], ?_, ?_, ?_⟩
    · simp [playerLink, hpid]
    · intro t ht; cases ht
    · intro pid hp1; cases hp1
  | some pid =>
    by_cases hz : pid = 0
    · subst hz
      refine ⟨[], ?_, ?_, ?_⟩
      · simp [playerLink, hpid]
      · intro t ht; cases ht
      · intro pid1 hp1 hz1
        injection hp1 with he
        exact absurd he.symm hz1
    · have hmem := h1 pid hpid hz
      refine ⟨[⟨e, "player_id", Obj.uri (playerUri pid)⟩], ?_, ?_, ?_⟩
      · simp [playerLink, hpid, hz, hmem]
      · intro t ht; simp only [List.mem_singleton] at ht; rw [ht]
      · intro pid1 hp1 _
        injection hp1 with he
        subst he
        simp

/-- An Except value whose isOk flag holds is an ok value. -/
theorem isOk_exists {ε α : Type} (x : Except ε α) (h : x.isOk = true) :
    ∃ v, x = Except.ok v := by
  cases x with
  | ok v => exact ⟨v, rfl⟩
  | error e => simp [Except.isOk, Except.toBool] at h

/-- The Shot/Goal block succeeds when every assist id surfaced by the goal
lookup is registered. -/
theorem shotTriples_ok (e : String) (reg : List Nat) (goals : List GoalRec)
    (ev : FlatEvent)
    (h2 : ∀ gd a, goalLkp goals (evKey ev) = some gd → gd.assist_id = some a → a ∈ reg) :
    ∃ sh, shotTriples e reg goals ev = Except.ok sh := by
  refine isOk_exists _ ?_
  by_cases hty : ev.event_type = "shot"
  · by_cases hout : outcomeLower ev = "goal" ∨ outcomeLower ev = "successful"
    · cases hgd : goalLkp goals (evKey ev) with
      | none => simp [shotTriples, hty, hout, hgd, Except.isOk, Except.toBool]
      | some gd =>
        cases ha : gd.assist_id with
        | none => simp [shotTriples, hty, hout, hgd, ha, Except.isOk, Except.toBool]
        | some a =>
          simp [shotTriples, hty, hout, hgd, ha, h2 gd a hgd ha,
            Except.isOk, Except.toBool]
    · simp [shotTriples, hty, hout, Except.isOk, Except.toBool]
  · simp [shotTriples, hty, Except.isOk, Except.toBool]

/-- The Substitution block succeeds when every outgoing player surfaced by
the substitution lookup is registered, and then carries the outgoing-player
link on a lookup hit. -/
theorem subTriples_spec (e : String) (reg : List Nat) (subs : List SubRec)
    (ev : FlatEvent)
    (h3 : ∀ sd, subLkp subs ev.event_time = some sd → sd.out_player_id ∈ reg) :
    ∃ su, subTriples e reg subs ev = Except.ok su ∧
      ∀ sd, ev.event_type = "substitution" → subLkp subs ev.event_time = some sd →
        Triple.mk e "out_player_id" (Obj.uri (playerUri sd.out_player_id)) ∈ su := by
  by_cases hty : ev.event_type = "substitution"
  · cases hsd : subLkp subs ev.event_time with
    | none =>
      refine ⟨[⟨e, "rdf:type", Obj.uri "Subtitution"⟩], ?_, ?_⟩
      · simp [subTriples, hty, hsd]
      · intro sd _ hsd1
        cases hsd1
    | some sd =>
      refine ⟨[⟨e, "rdf:type", Obj.uri "Subtitution"⟩,
        ⟨e, "out_player_id", Obj.uri (playerUri sd.out_player_id)⟩] ++
        addT e "out_time" (PyVal.vstr sd.out_time) none, ?_, ?_⟩
      · simp [subTriples, hty, hsd, h3 sd hsd]
      · intro sd1 _ hsd1
        injection hsd1 with he
        subst he
        simp
  · refine ⟨[], ?_, ?_⟩
    · simp [subTriples, hty]
    · intro sd hc
      exact absurd hc hty

/-- The Pass block carries the receiver link for a truthy receiver id. -/
theorem passTriples_recv (e : String) (ev : FlatEvent) (rid : Nat)
    (hty : ev.event_type = "pass") (hr : ev.event_receiver_id = some rid)
    (hz : rid ≠ 0) :
    Triple.mk e "receiver_id" (Obj.uri (playerUri rid)) ∈ passTriples e ev := by
  simp [passTriples, hty, hr, hz]

/-! ## C1: round-trip join for shot goals -/

/-- C1: for a flat shot event with outcome Goal (acting player registered
when truthy, as roster processing guarantees), if the sheet's goal list has
an entry under the event's time/player/team key, the event node receives
both the Shot and Goal type tags — whether or not that entry's assist id is
set — and, when the assist id is set (and registered), an assist link to
that player's node, while a hit with an unset assist id yields no assist
link; when the goal list has no entry under the key, the node receives the
Shot and Goal tags and no assist link at all. -/
theorem c1_round_trip_join (m : String) (reg : List Nat) (goals : List GoalRec)
    (subs : List SubRec) (cards : List CardRec) (ev : FlatEvent)
    (hty : ev.event_type = "shot") (hout : ev.event_outcome_type = some "Goal")
    (hreg : ∀ pid, ev.event_player_id = some pid → pid ≠ 0 → pid ∈ reg) :
    (∀ gd a, goalLkp goals (evKey ev) = some gd → gd.assist_id = some a → a ∈ reg →
      ∃ ts, eventTriples m reg goals subs cards ev = Except.ok ts ∧
        Triple.mk ("event/" ++ ev.event_id) "rdf:type" (Obj.uri "Shot") ∈ ts ∧
        Triple.mk ("event/" ++ ev.event_id) "rdf:type" (Obj.uri "Goal") ∈ ts ∧
        Triple.mk ("event/" ++ ev.event_id) "assist_id" (Obj.uri (playerUri a)) ∈ ts) ∧
    (∀ gd, goalLkp goals (evKey ev) = some gd → gd.assist_id = none →
      ∃ ts, eventTriples m reg goals subs cards ev = Except.ok ts ∧
        Triple.mk ("event/" ++ ev.event_id) "rdf:type" (Obj.uri "Shot") ∈ ts ∧
        Triple.mk ("event/" ++ ev.event_id) "rdf:type" (Obj.uri "Goal") ∈ ts ∧
        ∀ t ∈ ts, t.p ≠ "assist_id") ∧
    (goalLkp goals (evKey ev) = none →
      ∀ ts, eventTriples m reg goals subs cards ev = Except.ok ts →
        Triple.mk ("event/" ++ ev.event_id) "rdf:type" (Obj.uri "Shot") ∈ ts ∧
        Triple.mk ("event/" ++ ev.event_id) "rdf:type" (Obj.uri "Goal") ∈ ts ∧
        ∀ t ∈ ts, t.p ≠ "assist_id") := by
  have hneSub : ev.event_type ≠ "substitution" := by rw [hty]; decide
  have hnePass : ev.event_type ≠ "pass" := by rw [hty]; decide
  have houtL : outcomeLower ev = "goal" := by
    simp only [outcomeLower, hout, Option.getD_some]
    decide
  obtain ⟨pl, hpl, hplP, _⟩ := playerLink_spec ("event/" ++ ev.event_id) reg ev hreg
  have hsu : subTriples ("event/" ++ ev.event_id) reg subs ev = Except.ok [] := by
    simp [subTriples, hneSub]
  have hpassE : passTriples ("event/" ++ ev.event_id) ev = [] := by
    simp [passTriples, hnePass]
  refine ⟨?_, ?_, ?_⟩
  · intro gd a hgd ha hareg
    have hsh : shotTriples ("event/" ++ ev.event_id) reg goals ev = Except.ok
        ([⟨"event/" ++ ev.event_id, "rdf:type", Obj.uri "Shot"⟩,
          ⟨"event/" ++ ev.event_id, "rdf:type", Obj.uri "Goal"⟩,
          ⟨"event/" ++ ev.event_id, "assist_id", Obj.uri (playerUri a)⟩] ++
         addT ("event/" ++ ev.event_id) "is_own_goal" (PyVal.vbool gd.is_own_goal) none ++
         addT ("event/" ++ ev.event_id) "is_penalty" (PyVal.vbool gd.is_penalty) none) := by
      simp [shotTriples, hty, houtL, hgd, ha, hareg]
    refine ⟨[⟨"event/" ++ ev.event_id, "rdf:type", Obj.uri "Event"⟩,
        ⟨"match/" ++ m, "events", Obj.uri ("event/" ++ ev.event_id)⟩] ++
        attrTriples ("event/" ++ ev.event_id) ev ++ pl ++
        [⟨"event/" ++ ev.event_id, "team_id",
          Obj.uri ("team/" ++ toString ev.event_team_id)⟩] ++
        ([⟨"event/" ++ ev.event_id, "rdf:type", Obj.uri "Shot"⟩,
          ⟨"event/" ++ ev.event_id, "rdf:type", Obj.uri "Goal"⟩,
          ⟨"event/" ++ ev.event_id, "assist_id", Obj.uri (playerUri a)⟩] ++
         addT ("event/" ++ ev.event_id) "is_own_goal" (PyVal.vbool gd.is_own_goal) none ++
         addT ("event/" ++ ev.event_id) "is_penalty" (PyVal.vbool gd.is_penalty) none) ++
        passTriples ("event/" ++ ev.event_id) ev ++ [] ++
        cardTriples ("event/" ++ ev.event_id) cards ev, ?_, ?_, ?_, ?_⟩
    · simp only [eventTriples, hpl, hsh, hsu]
    · simp
    · simp
    · simp
  · intro gd hgd ha
    have hsh : shotTriples ("event/" ++ ev.event_id) reg goals ev = Except.ok
        ([⟨"event/" ++ ev.event_id, "rdf:type", Obj.uri "Shot"⟩,
          ⟨"event/" ++ ev.event_id, "rdf:type", Obj.uri "Goal"⟩] ++
         addT ("event/" ++ ev.event_id) "is_own_goal" (PyVal.vbool gd.is_own_goal) none ++
         addT ("event/" ++ ev.event_id) "is_penalty" (PyVal.vbool gd.is_penalty) none) := by
      simp [shotTriples, hty, houtL, hgd, ha]
    refine ⟨[⟨"event/" ++ ev.event_id, "rdf:type", Obj.uri "Event"⟩,
        ⟨"match/" ++ m, "events", Obj.uri ("event/" ++ ev.event_id)⟩] ++
        attrTriples ("event/" ++ ev.event_id) ev ++ pl ++
        [⟨"event/" ++ ev.event_id, "team_id",
          Obj.uri ("team/" ++ toString ev.event_team_id)⟩] ++
        ([⟨"event/" ++ ev.event_id, "rdf:type", Obj.uri "Shot"⟩,
          ⟨"event/" ++ ev.event_id, "rdf:type", Obj.uri "Goal"⟩] ++
         addT ("event/" ++ ev.event_id) "is_own_goal" (PyVal.vbool gd.is_own_goal) none ++
         addT ("event/" ++ ev.event_id) "is_penalty" (PyVal.vbool gd.is_penalty) none) ++
        [] ++ [] ++
        cardTriples ("event/" ++ ev.event_id) cards ev, ?_, ?_, ?_, ?_⟩
    · simp only [eventTriples, hpl, hsh, hsu, hpassE]
    · simp
    · simp
    · simp only [List.forall_mem_append]
      refine ⟨⟨⟨⟨⟨⟨⟨?_, ?_⟩, ?_⟩, ?_⟩, ⟨⟨?_, ?_⟩, ?_⟩⟩, ?_⟩, ?_⟩, ?_⟩
      · simp
      · intro t ht
        exact attrTriples_ne_assist _ _ _ ht
      · intro t ht
        rw [hplP t ht]
        simp
      · simp
      · simp
      · intro t ht
        have hp := addT_pred _ _ _ _ _ ht
        rw [hp]
        simp
      · intro t ht
        have hp := addT_pred _ _ _ _ _ ht
        rw [hp]
        simp
      · simp
      · simp
      · intro t ht
        exact cardTriples_ne_assist _ _ _ _ ht
  · intro hgd ts hts
    have hsh : shotTriples ("event/" ++ ev.event_id) reg goals ev = Except.ok
        [⟨"event/" ++ ev.event_id, "rdf:type", Obj.uri "Shot"⟩,
         ⟨"event/" ++ ev.event_id, "rdf:type", Obj.uri "Goal"⟩] := by
      simp [shotTriples, hty, houtL, hgd]
    simp only [eventTriples, hpl, hsh, hsu, hpassE] at hts
    injection hts with hbig
    subst hbig
    refine ⟨by simp, by simp, ?_⟩
    simp only [List.forall_mem_append]
    refine ⟨⟨⟨⟨⟨⟨⟨?_, ?_⟩, ?_⟩, ?_⟩, ?_⟩, ?_⟩, ?_⟩, ?_⟩
    · simp
    · intro t ht
      exact attrTriples_ne_assist _ _ _ ht
    · intro t ht
      rw [hplP t ht]
      simp
    · simp
    · simp
    · simp
    · simp
    · intro t ht
      exact cardTriples_ne_assist _ _ _ _ ht

/-- The flat shot event of the C1 witness: a goal at the spec's example
clock by player 1 for team 5. -/
def c1Ev : FlatEvent :=
  { event_id := "e9", event_time := "00:23:04.500", event_period := "first half",
    event_type := "shot", event_outcome_type := some "Goal",
    event_player_id := some 1, event_team_id := 5 }

/-- The sheet goal record of the C1 witness, keyed like the event, with
assist player 2. -/
def c1Goal : GoalRec :=
  { time := "00:23:04.500", player_id := 1, assist_id := some 2, team_id := 5,
    is_own_goal := false, is_penalty := false, score_home := 1, score_away := 0 }

/-- C1 witness: the join hits the concrete goal record and the node gets
the Shot and Goal tags plus the assist link to player 2. -/
theorem c1_round_trip_join_witness :
    goalLkp [c1Goal] (evKey c1Ev) = some c1Goal ∧
      ∃ ts, eventTriples "m1" [1, 2] [c1Goal] [] [] c1Ev = Except.ok ts ∧
        Triple.mk ("event/" ++ c1Ev.event_id) "rdf:type" (Obj.uri "Shot") ∈ ts ∧
        Triple.mk ("event/" ++ c1Ev.event_id) "rdf:type" (Obj.uri "Goal") ∈ ts ∧
        Triple.mk ("event/" ++ c1Ev.event_id) "assist_id" (Obj.uri (playerUri 2)) ∈ ts :=
  ⟨by decide,
    (c1_round_trip_join "m1" [1, 2] [c1Goal] [] [] c1Ev rfl rfl (by decide)).1
      c1Goal 2 (by decide) rfl (by decide)⟩

/-! ## C3: referential integrity -/

/-- A flat event whose acting player 7 was never registered. -/
def c3BadEv : FlatEvent :=
  { event_id := "e1", event_time := "00:01:00.000", event_period := "first half",
    event_type := "clearance", event_player_id := some 7, event_team_id := 3 }

/-- C3, counterexample: graph construction does not succeed for every
player reference: an event whose acting player was never registered during
roster processing raises a lookup error that aborts the build (the index
subscript on line 178 of the graph builder), instead of synthesizing a
stub. The claim as stated (no lookup failure ever aborts the build) is
false; only pass receivers get the stub fallback. -/
theorem c3_referential_integrity_cex :
    eventTriples "m1" [] [] [] [] c3BadEv = Except.error "KeyError: 7" := by
  decide

/-- C3, amended: when every truthy acting-player id, every assist id
surfaced by the goal join and every outgoing player surfaced by the
substitution join is roster-registered, graph construction succeeds for the
event, the acting-player link points at the registered player node, a truthy
pass-receiver reference always yields a receiver link at the player address
built from the identifier (the stub address, equal to the roster address,
whether or not the receiver is registered, with no attribute triples of its
own), and a substitution hit yields the outgoing-player link; references of
the three indexed kinds that are not registered abort the build with a
lookup error, as the counterexample shows. -/
theorem c3_referential_integrity_amended (m : String) (reg : List Nat)
    (goals : List GoalRec) (subs : List SubRec) (cards : List CardRec)
    (ev : FlatEvent)
    (h1 : ∀ pid, ev.event_player_id = some pid → pid ≠ 0 → pid ∈ reg)
    (h2 : ∀ gd a, goalLkp goals (evKey ev) = some gd → gd.assist_id = some a → a ∈ reg)
    (h3 : ∀ sd, subLkp subs ev.event_time = some sd → sd.out_player_id ∈ reg) :
    ∃ ts, eventTriples m reg goals subs cards ev = Except.ok ts ∧
      (∀ pid, ev.event_player_id = some pid → pid ≠ 0 →
        Triple.mk ("event/" ++ ev.event_id) "player_id" (Obj.uri (playerUri pid)) ∈ ts) ∧
      (∀ rid, ev.event_type = "pass" → ev.event_receiver_id = some rid → rid ≠ 0 →
        Triple.mk ("event/" ++ ev.event_id) "receiver_id" (Obj.uri (playerUri rid)) ∈ ts) ∧
      (∀ sd, ev.event_type = "substitution" → subLkp subs ev.event_time = some sd →
        Triple.mk ("event/" ++ ev.event_id) "out_player_id"
          (Obj.uri (playerUri sd.out_player_id)) ∈ ts) := by
  obtain ⟨pl, hpl, _, hplMem⟩ := playerLink_spec ("event/" ++ ev.event_id) reg ev h1
  obtain ⟨sh, hsh⟩ := shotTriples_ok ("event/" ++ ev.event_id) reg goals ev h2
  obtain ⟨su, hsu, hsuMem⟩ := subTriples_spec ("event/" ++ ev.event_id) reg subs ev h3
  refine ⟨[⟨"event/" ++ ev.event_id, "rdf:type", Obj.uri "Event"⟩,
      ⟨"match/" ++ m, "events", Obj.uri ("event/" ++ ev.event_id)⟩] ++
      attrTriples ("event/" ++ ev.event_id) ev ++ pl ++
      [⟨"event/" ++ ev.event_id, "team_id",
        Obj.uri ("team/" ++ toString ev.event_team_id)⟩] ++
      sh ++ passTriples ("event/" ++ ev.event_id) ev ++ su ++
      cardTriples ("event/" ++ ev.event_id) cards ev, ?_, ?_, ?_, ?_⟩
  · simp only [eventTriples, hpl, hsh, hsu]
  · intro pid hp hz
    have hm := hplMem pid hp hz
    simp only [List.mem_append]
    tauto
  · intro rid hty hr hz
    have hm := passTriples_recv ("event/" ++ ev.event_id) ev rid hty hr hz
    simp only [List.mem_append]
    tauto
  · intro sd hty hsd
    have hm := hsuMem sd hty hsd
    simp only [List.mem_append]
    tauto

/-- The flat pass event of the C3 witness: acting player 2 is registered;
the receiver 42 is not and gets the stub address. -/
def c3PassEv : FlatEvent :=
  { event_id := "e2", event_time := "00:02:00.000", event_period := "first half",
    event_type := "pass", event_player_id := some 2, event_team_id := 3,
    event_receiver_id := some 42, event_receiver_time := some "00:02:01.000" }

/-- C3 witness: the amended theorem applied to the concrete pass with an
unregistered receiver. -/
theorem c3_referential_integrity_witness :
    (∀ pid, c3PassEv.event_player_id = some pid → pid ≠ 0 → pid ∈ [2]) ∧
      ∃ ts, eventTriples "m1" [2] [] [] [] c3PassEv = Except.ok ts ∧
        (∀ pid, c3PassEv.event_player_id = some pid → pid ≠ 0 →
          Triple.mk ("event/" ++ c3PassEv.event_id) "player_id"
            (Obj.uri (playerUri pid)) ∈ ts) ∧
        (∀ rid, c3PassEv.event_type = "pass" → c3PassEv.event_receiver_id = some rid →
          rid ≠ 0 →
          Triple.mk ("event/" ++ c3PassEv.event_id) "receiver_id"
            (Obj.uri (playerUri rid)) ∈ ts) ∧
        (∀ sd, c3PassEv.event_type = "substitution" →
          subLkp [] c3PassEv.event_time = some sd →
          Triple.mk ("event/" ++ c3PassEv.event_id) "out_player_id"
            (Obj.uri (playerUri sd.out_player_id)) ∈ ts) :=
  ⟨by decide,
    c3_referential_integrity_amended "m1" [2] [] [] [] c3PassEv (by decide)
      (by intro gd a h; simp [goalLkp] at h)
      (by intro sd h; simp [subLkp] at h)⟩

/-! ## C2: two-pass assist correlation -/

/-- A pass with the goal_assist annotation, naming shot S as its assisted
shot; its passer is player 1. -/
def c2PassEv : RawEvent :=
  { id := "P", typeName := "Pass", team_id := 10, period := 1,
    player_id := some 1, minute := some 5, second := some 0,
    pass := some { goal_assist := true, assisted_shot_id := some "S",
                   recipient := none, end_location := none, body_part := none,
                   passType := none, outcome := none } }

/-- The goal-scoring shot S, whose key-pass reference names event Q. -/
def c2ShotEv : RawEvent :=
  { id := "S", typeName := "Shot", team_id := 10, period := 1,
    player_id := some 9, minute := some 5, second := some 2,
    shot := some { outcome := some "Goal", shotType := some "Open Play",
                   key_pass_id := some "Q" } }

/-- The key pass Q, made by player 2. -/
def c2KeyPassEv : RawEvent :=
  { id := "Q", typeName := "Pass", team_id := 10, period := 1,
    player_id := some 2, minute := some 4, second := some 50,
    pass := some { goal_assist := false, assisted_shot_id := none,
                   recipient := none, end_location := none, body_part := none,
                   passType := none, outcome := none } }

/-- C2: pass 1 records player 1 as assist provider for shot S, yet the
complete two-pass computation ends with player 2: pass 2 guards on whether
the key-pass id Q is a key of the assist map, but that map is keyed by shot
ids, so the guard never detects the pass-1 entry for S and the pass-2 result
replaces it. This contradicts the claim (and the spec) that pass 2 runs only
for shots lacking a pass-1 assist and that pass-1 entries are never
replaced; the intended membership test is on the shot's own id. -/
theorem c2_assist_two_pass_bug :
    pass1 [] [c2PassEv, c2ShotEv, c2KeyPassEv] = Except.ok [("S", 1)] ∧
      assistFor [c2PassEv, c2ShotEv, c2KeyPassEv] = Except.ok [("S", 2)] := by
  decide

/-! ## C10: no own-goal flag in the goals list -/

theorem goalsFold_own_goal (home away : Nat) (amap : List (String × Nat)) :
    ∀ (l : List RawEvent) (st st1 : GoalState),
      (∀ ev ∈ l, is_goal ev = true) →
      (∀ g ∈ st.running, g.is_own_goal = false) →
      goalsFold home away amap st l = Except.ok st1 →
      ∀ g ∈ st1.running, g.is_own_goal = false := by
  intro l
  induction l with
  | nil =>
    intro st st1 _ hst hfold
    simp only [goalsFold] at hfold
    cases hfold
    exact hst
  | cons ev l ih =>
    intro st st1 hl hst hfold
    simp only [goalsFold] at hfold
    cases hpid : ev.player_id with
    | none => simp [goalStep, hpid] at hfold
    | some pid =>
      simp only [goalStep, hpid] at hfold
      refine ih _ st1 (fun x hx => hl x (by simp [hx])) ?_ hfold
      intro g hg
      simp only [List.mem_append, List.mem_singleton] at hg
      rcases hg with hg | hg
      · exact hst g hg
      · subst hg
        have h1 := hl ev (by simp)
        simp only [is_goal, Bool.and_eq_true, decide_eq_true_eq] at h1
        simp [h1.2]

/-- C10: every entry of the running-score (goals) list produced by the
match-sheet build carries a false own-goal flag: an event enters the goal
list only when its shot outcome name is Goal, while the own-goal flag
compares the same name with Own Goal, and the two can never hold together. -/
theorem c10_no_own_goal (events : List RawEvent) (amap : List (String × Nat))
    (home away : Nat) (gs : List GoalRec) (res : MatchResult)
    (h : buildGoals events amap home away = Except.ok (gs, res)) :
    ∀ g ∈ gs, g.is_own_goal = false := by
  unfold buildGoals at h
  cases hfold : goalsFold home away amap ⟨fun _ => 0, fun _ _ => 0, []⟩
      (events.filter is_goal) with
  | error e => rw [hfold] at h; cases h
  | ok st =>
    rw [hfold] at h
    injection h with h2
    have hgs : st.running = gs := congrArg Prod.fst h2
    rw [← hgs]
    exact goalsFold_own_goal home away amap _ _ _
      (fun ev hev => (List.mem_filter.mp hev).2)
      (by intro g hg; cases hg) hfold

/-- A concrete goal-scoring shot for the C10 witness. -/
def c10Ev : RawEvent :=
  { id := "g1", typeName := "Shot", team_id := 10, period := 1,
    player_id := some 9, minute := some 23, second := some 4,
    timestamp := some "00:23:04.500",
    shot := some { outcome := some "Goal", shotType := some "Open Play",
                   key_pass_id := none } }

/-- The goals list the build produces for the C10 witness input. -/
def c10Goals : List GoalRec :=
  [{ time := "00:23:04.500", player_id := 9, assist_id := none, team_id := 10,
     is_own_goal := false, is_penalty := false, score_home := 1, score_away := 0 }]

/-- The result block the build produces for the C10 witness input. -/
def c10Res : MatchResult :=
  { final_home := 1, final_away := 0, winning_team_id := some 10,
    first_half_home := 1, first_half_away := 0,
    second_half_home := 0, second_half_away := 0,
    fhet_home := 0, fhet_away := 0, shet_home := 0, shet_away := 0,
    shootout_home := 0, shootout_away := 0 }

/-- C10 witness: the theorem applied to the one-goal match. -/
theorem c10_no_own_goal_witness :
    buildGoals [c10Ev] [] 10 20 = Except.ok (c10Goals, c10Res) ∧
      ∀ g ∈ c10Goals, g.is_own_goal = false :=
  ⟨by decide, c10_no_own_goal [c10Ev] [] 10 20 c10Goals c10Res (by decide)⟩

/-! ## C4: score monotonicity and period-sum consistency -/

/-- The running score is non-decreasing between adjacent goal records. -/
def ScoreMono (a b : GoalRec) : Prop :=
  a.score_home ≤ b.score_home ∧ a.score_away ≤ b.score_away

theorem goalsFold_mono (home away : Nat) (amap : List (String × Nat)) :
    ∀ (l : List RawEvent) (st st1 : GoalState),
      goalsFold home away amap st l = Except.ok st1 →
      List.Chain' ScoreMono st.running →
      (∀ x ∈ st.running.getLast?,
        x.score_home ≤ st.score home ∧ x.score_away ≤ st.score away) →
      List.Chain' ScoreMono st1.running ∧
        ∀ x ∈ st1.running.getLast?,
          x.score_home ≤ st1.score home ∧ x.score_away ≤ st1.score away := by
  intro l
  induction l with
  | nil =>
    intro st st1 hfold hchain hlast
    simp only [goalsFold] at hfold
    cases hfold
    exact ⟨hchain, hlast⟩
  | cons ev l ih =>
    intro st st1 hfold hchain hlast
    simp only [goalsFold] at hfold
    cases hpid : ev.player_id with
    | none => simp [goalStep, hpid] at hfold
    | some pid =>
      simp only [goalStep, hpid] at hfold
      have hsh : st.score home ≤ (if home = ev.team_id then st.score home + 1 else st.score home) := by
        split <;> omega
      have hsa : st.score away ≤ (if away = ev.team_id then st.score away + 1 else st.score away) := by
        split <;> omega
      refine ih _ st1 hfold ?_ ?_
      · refine List.chain'_append.2 ⟨hchain, List.chain'_singleton _, ?_⟩
        intro x hx y hy
        simp only [List.head?_cons, Option.mem_def, Option.some.injEq] at hy
        subst hy
        have hx1 := hlast x hx
        exact ⟨le_trans hx1.1 hsh, le_trans hx1.2 hsa⟩
      · intro x hx
        simp only [List.getLast?_concat, Option.mem_def, Option.some.injEq] at hx
        subst hx
        exact ⟨le_refl _, le_refl _⟩

theorem goalsFold_sum (home away : Nat) (amap : List (String × Nat)) :
    ∀ (l : List RawEvent) (st st1 : GoalState),
      (∀ ev ∈ l, 1 ≤ ev.period ∧ ev.period ≤ 5) →
      (∀ t, st.score t =
        st.gbpt 1 t + st.gbpt 2 t + st.gbpt 3 t + st.gbpt 4 t + st.gbpt 5 t) →
      goalsFold home away amap st l = Except.ok st1 →
      ∀ t, st1.score t =
        st1.gbpt 1 t + st1.gbpt 2 t + st1.gbpt 3 t + st1.gbpt 4 t + st1.gbpt 5 t := by
  intro l
  induction l with
  | nil =>
    intro st st1 _ hinv hfold
    simp only [goalsFold] at hfold
    cases hfold
    exact hinv
  | cons ev l ih =>
    intro st st1 hl hinv hfold
    simp only [goalsFold] at hfold
    cases hpid : ev.player_id with
    | none => simp [goalStep, hpid] at hfold
    | some pid =>
      simp only [goalStep, hpid] at hfold
      refine ih _ st1 (fun x hx => hl x (by simp [hx])) ?_ hfold
      intro t
      have h0 := hinv t
      have hp := hl ev (by simp)
      dsimp only
      by_cases ht : t = ev.team_id
      · subst ht
        have hper : ev.period = 1 ∨ ev.period = 2 ∨ ev.period = 3 ∨
            ev.period = 4 ∨ ev.period = 5 := by omega
        rcases hper with h | h | h | h | h <;> simp [h] <;> omega
      · have hcond : ∀ p : Nat, ¬(p = ev.period ∧ t = ev.team_id) := fun p hc => ht hc.2
        simp only [if_neg ht, if_neg (hcond 1), if_neg (hcond 2), if_neg (hcond 3),
          if_neg (hcond 4), if_neg (hcond 5)]
        exact h0

/-- C4: the running-score list is monotone (each successive entry's home
and away totals are at least the previous entry's), and, whenever every
goal event's period number is one of the five playable periods, the final
totals in the result breakdown equal the sum of the per-period totals over
first half, second half, both extra-time periods and the shootout, for home
and away alike. -/
theorem c4_score_monotone_period_sum (events : List RawEvent)
    (amap : List (String × Nat)) (home away : Nat) (gs : List GoalRec)
    (res : MatchResult) (h : buildGoals events amap home away = Except.ok (gs, res)) :
    List.Chain' ScoreMono gs ∧
      ((∀ ev ∈ events, is_goal ev = true → 1 ≤ ev.period ∧ ev.period ≤ 5) →
        res.final_home = res.first_half_home + res.second_half_home +
          res.fhet_home + res.shet_home + res.shootout_home ∧
        res.final_away = res.first_half_away + res.second_half_away +
          res.fhet_away + res.shet_away + res.shootout_away) := by
  unfold buildGoals at h
  cases hfold : goalsFold home away amap ⟨fun _ => 0, fun _ _ => 0, []⟩
      (events.filter is_goal) with
  | error e => rw [hfold] at h; cases h
  | ok st =>
    rw [hfold] at h
    injection h with h2
    have hgs : st.running = gs := congrArg Prod.fst h2
    have hres : mkResult st home away = res := congrArg Prod.snd h2
    constructor
    · rw [← hgs]
      exact (goalsFold_mono home away amap _ _ _ hfold List.chain'_nil
        (by intro x hx; cases hx)).1
    · intro hper
      have hsum := goalsFold_sum home away amap _ _ _
        (fun ev hev => hper ev (List.mem_filter.mp hev).1 (List.mem_filter.mp hev).2)
        (fun _ => rfl) hfold
      rw [← hres]
      exact ⟨hsum home, hsum away⟩

/-- First goal of the C4 witness match: home team, first half. -/
def c4Ev1 : RawEvent :=
  { id := "g1", typeName := "Shot", team_id := 10, period := 1,
    player_id := some 9, minute := some 23, second := some 4,
    timestamp := some "00:23:04.500",
    shot := some { outcome := some "Goal", shotType := some "Open Play",
                   key_pass_id := none } }

/-- Second goal of the C4 witness match: away team, second half, penalty. -/
def c4Ev2 : RawEvent :=
  { id := "g2", typeName := "Shot", team_id := 20, period := 2,
    player_id := some 4, minute := some 70, second := some 10,
    timestamp := some "00:25:10.000",
    shot := some { outcome := some "Goal", shotType := some "Penalty",
                   key_pass_id := none } }

/-- The goals list the build produces for the C4 witness input. -/
def c4Goals : List GoalRec :=
  [{ time := "00:23:04.500", player_id := 9, assist_id := some 2, team_id := 10,
     is_own_goal := false, is_penalty := false, score_home := 1, score_away := 0 },
   { time := "01:10:10.000", player_id := 4, assist_id := none, team_id := 20,
     is_own_goal := false, is_penalty := true, score_home := 1, score_away := 1 }]

/-- The result block the build produces for the C4 witness input. -/
def c4Res : MatchResult :=
  { final_home := 1, final_away := 1, winning_team_id := none,
    first_half_home := 1, first_half_away := 0,
    second_half_home := 0, second_half_away := 1,
    fhet_home := 0, fhet_away := 0, shet_home := 0, shet_away := 0,
    shootout_home := 0, shootout_away := 0 }

/-- C4 witness: the theorem applied to a concrete two-goal match with goals
in the first and second halves. -/
theorem c4_score_monotone_period_sum_witness :
    buildGoals [c4Ev1, c4Ev2] [("g1", 2)] 10 20 = Except.ok (c4Goals, c4Res) ∧
      (∀ ev ∈ [c4Ev1, c4Ev2], is_goal ev = true → 1 ≤ ev.period ∧ ev.period ≤ 5) ∧
      (List.Chain' ScoreMono c4Goals ∧
        c4Res.final_home = c4Res.first_half_home + c4Res.second_half_home +
          c4Res.fhet_home + c4Res.shet_home + c4Res.shootout_home ∧
        c4Res.final_away = c4Res.first_half_away + c4Res.second_half_away +
          c4Res.fhet_away + c4Res.shet_away + c4Res.shootout_away) := by
  have h := c4_score_monotone_period_sum [c4Ev1, c4Ev2] [("g1", 2)] 10 20
    c4Goals c4Res (by decide)
  exact ⟨by decide, by decide, h.1, h.2 (by decide)⟩

/-! ## C8: card normalization -/

/-- C8, counterexample: a Bad Behaviour event whose nested card object
exists but is empty (no keys at all) is skipped by the falsiness test and
emits no card record, where the claim demands one record with type
unknown. -/
theorem c8_card_normalization_cex :
    cardEntries
        { id := "c1", typeName := "Bad Behaviour", team_id := 3, period := 1,
          player_id := some 7, minute := some 50, second := some 0,
          bbCard := some { typeField := none, flatName := none, extraKeys := 0 } } =
      [] := by
  decide

/-- C8, amended: for every raw event of type Card, Foul Committed or Bad
Behaviour carrying a non-empty nested card object, exactly one card record
is emitted, whose type string is the lowercase of the resolvable name (the
typed sub-object's name when the type field is a dictionary, else the flat
name field), and is unknown when no non-empty name resolves; an event whose
nested card object is empty emits no record. -/
theorem c8_card_normalization_amended (ev : RawEvent) (c : CardObj)
    (hc : cardObjOf ev = some c) :
    (c.truthy = true →
      cardEntries ev =
        [{ time := match_clock ev, player_id := pidStrN ev.player_id,
           ctype := cardTypeStr c, team_id := ev.team_id }]) ∧
      (c.truthy = false → cardEntries ev = []) ∧
      (∀ s, rawCardName c = some s → s ≠ "" → cardTypeStr c = pyLower s) ∧
      (rawCardName c = none → cardTypeStr c = "unknown") := by
  refine ⟨fun ht => ?_, fun hf => ?_, fun s hs hne => ?_, fun hn => ?_⟩
  · simp [cardEntries, hc, ht]
  · simp [cardEntries, hc, hf]
  · simp [cardTypeStr, hs, hne]
  · simp [cardTypeStr, hn]

/-- C8 witness: the amended theorem applied to a concrete Bad Behaviour
event whose card detail has the typed name Yellow Card; the emitted record
has the lowercase type yellow card. -/
theorem c8_card_normalization_witness :
    cardObjOf
        { id := "c2", typeName := "Bad Behaviour", team_id := 3, period := 2,
          player_id := some 7, minute := some 50, second := some 0,
          bbCard := some { typeField := some (CardTypeField.tdict (some "Yellow Card")),
                           flatName := none, extraKeys := 0 } } =
      some { typeField := some (CardTypeField.tdict (some "Yellow Card")),
             flatName := none, extraKeys := 0 } ∧
      cardEntries
        { id := "c2", typeName := "Bad Behaviour", team_id := 3, period := 2,
          player_id := some 7, minute := some 50, second := some 0,
          bbCard := some { typeField := some (CardTypeField.tdict (some "Yellow Card")),
                           flatName := none, extraKeys := 0 } } =
      [{ time := "00:50:00.000", player_id := "7", ctype := "yellow card",
         team_id := 3 }] := by
  refine ⟨by decide, ?_⟩
  have h := (c8_card_normalization_amended
    { id := "c2", typeName := "Bad Behaviour", team_id := 3, period := 2,
      player_id := some 7, minute := some 50, second := some 0,
      bbCard := some { typeField := some (CardTypeField.tdict (some "Yellow Card")),
                       flatName := none, extraKeys := 0 } }
    { typeField := some (CardTypeField.tdict (some "Yellow Card")),
      flatName := none, extraKeys := 0 } (by decide)).1 (by decide)
  exact h
